import Mathlib

/-!
Shallow embedding of the transaction-calendar aggregation engine of the
`CustomCalendarChart` component (src/unnamed/part_002) and proofs about it.

Conventions of the embedding:
* JS numbers are modelled by `Rat` (exact arithmetic; the floating-point step
  `Math.floor(n * 0.80)` agrees with `⌊4n/5⌋` for every list length `n` that can
  arise, since the rounding error of `n * 0.80` in binary64 is below half an ulp
  of the product).
* JS `Date` values are modelled by `SDate` triples `(year, month, day)` with
  0-based months; `new Date(y, m, d)` day-overflow normalization is `mkDate`.
* The `Map` of `processedData` is an association list in insertion order.
* `router.push` is modelled by returning `some url`; "no navigation" is `none`.
-/

/-- A calendar date as produced by `getFullYear`/`getMonth`/`getDate`:
`month` is 0-based (0 = January). -/
structure SDate where
  year : Int
  month : Nat
  day : Nat
  deriving DecidableEq

/-- A transaction as consumed by the chart: `{id, date, amount, currency}`. -/
structure Transaction where
  id : Int
  date : SDate
  amount : Rat
  currency : String
  deriving DecidableEq

/-- One value of the `dateMap`: `{ count, amount }`. -/
structure Bucket where
  count : Nat
  amount : Rat
  deriving DecidableEq

/-- The key `` `${year}-${month}-${day}` `` of the `dateMap`, kept as a triple
(the string with dash separators is injective on such triples). -/
abbrev DateKey := Int × Nat × Nat

def dateKey (d : SDate) : DateKey := (d.year, d.month, d.day)

/-- The `type` prop: `"income" | "expense"`. -/
inductive ChartType
  | income
  | expense
  deriving DecidableEq

/-- `(y % 4 == 0 && y % 100 != 0) || y % 400 == 0`, the Gregorian leap-year rule
used by the JS `Date` object. -/
def isLeapYear (y : Int) : Bool :=
  ((y % 4 == 0) && (y % 100 != 0)) || (y % 400 == 0)

/-- Model of `new Date(year, month + 1, 0).getDate()`: the number of days of
0-based `month` in `year`. -/
def lastDayOfMonth (y : Int) (m : Nat) : Nat :=
  if m == 1 then (if isLeapYear y then 29 else 28)
  else if m == 3 || m == 5 || m == 8 || m == 10 then 30
  else 31

/-- Model of `new Date(y, m, d)` for `m ∈ [0, 11]`, `d ∈ [1, 35]`: a day number
past the end of the month rolls over into the following month. -/
def mkDate (y : Int) (m d : Nat) : SDate :=
  if d ≤ lastDayOfMonth y m then ⟨y, m, d⟩
  else if m < 11 then ⟨y, m + 1, d - lastDayOfMonth y m⟩
  else ⟨y + 1, 0, d - 31⟩

/-- Model of `date.setDate(date.getDate() - 1)` on a valid date: the previous
calendar day. -/
def prevDay (d : SDate) : SDate :=
  if d.day = 1 then
    if d.month = 0 then ⟨d.year - 1, 11, 31⟩
    else ⟨d.year, d.month - 1, lastDayOfMonth d.year (d.month - 1)⟩
  else ⟨d.year, d.month, d.day - 1⟩

/-- Model of `date.setDate(date.getDate() + 1)`: the next calendar day. -/
def nextDay (d : SDate) : SDate := mkDate d.year d.month (d.day + 1)

def pad2 (n : Nat) : String := if n < 10 then "0" ++ toString n else toString n

def pad4 (n : Nat) : String :=
  if n < 10 then "000" ++ toString n
  else if n < 100 then "00" ++ toString n
  else if n < 1000 then "0" ++ toString n
  else toString n

/-- Model of `formatDateForURL` (line 200): `date.toISOString().split('T')[0]`,
i.e. the `YYYY-MM-DD` rendering of the date triple (UTC clock). -/
def formatDateForURL (d : SDate) : String :=
  pad4 d.year.toNat ++ "-" ++ pad2 (d.month + 1) ++ "-" ++ pad2 d.day

/-- The injected currency-rate lookup `convert(amount, from, to)`; `none` models
a lookup failure. -/
abbrev Conv := Rat → String → String → Option Rat

/-- Modelled from the spec: the body of `convertForDisplaySync`
(`utils/currencyDisplay`) is not under `src/` — only its call site is. Per the
spec (§4.1, §6, §7) a conversion failure "must not abort the pass" and the
failing transaction's "contribution is treated as zero", so the wrapper isolates
a failing rate lookup and yields `0` for that transaction. -/
def convertForDisplaySync (conv : Conv) (amount : Rat) (fromCur toCur : String) : Rat :=
  (conv amount fromCur toCur).getD 0

/-- One `dateMap` step of `processedData` (lines 59-67): ensure the key is
present, then `count += 1` and `amount += a`.  A new key is appended at the end,
matching `Map` insertion order. -/
def updateAssoc : List (DateKey × Bucket) → DateKey → Rat → List (DateKey × Bucket)
  | [], k, a => [(k, ⟨1, a⟩)]
  | (q, b) :: rest, k, a =>
    if q = k then (q, ⟨b.count + 1, b.amount + a⟩) :: rest
    else (q, b) :: updateAssoc rest k a

/-- The body of the `data.forEach(transaction => ...)` loop of `processedData`
(lines 55-68), applied to the accumulated `dateMap`. -/
def pdStep (conv : Conv) (displayCurrency : String) (m : List (DateKey × Bucket))
    (t : Transaction) : List (DateKey × Bucket) :=
  updateAssoc m (dateKey t.date)
    (convertForDisplaySync conv t.amount t.currency displayCurrency)

/-- `processedData` (lines 51-76): bucket the transactions by calendar day,
converting each amount into the display currency. -/
def processedData (data : List Transaction) (conv : Conv) (displayCurrency : String) :
    List (DateKey × Bucket) :=
  data.foldl (pdStep conv displayCurrency) []

/-- `years.add(...)` on a JS `Set`, which keeps first-insertion order. -/
def addYear (acc : List Int) (y : Int) : List Int :=
  if y ∈ acc then acc else acc ++ [y]

/-- `displayYears` (lines 79-89): the distinct years of the data, sorted.
(The source's default `Array.prototype.sort` compares decimal strings, which
agrees with numeric order on equal-width years; no property below depends on
the order of this list.) -/
def displayYears (data : List Transaction) : List Int :=
  List.insertionSort (· ≤ ·) (data.foldl (fun acc t => addYear acc t.date.year) [])

/-- `processedData.get(dateKey)` on the association list. -/
def findBucket : List (DateKey × Bucket) → DateKey → Option Bucket
  | [], _ => none
  | (q, b) :: rest, k => if q = k then some b else findBucket rest k

/-- The count stored for a key (0 when absent). -/
def bCount (m : List (DateKey × Bucket)) (k : DateKey) : Nat :=
  match findBucket m k with
  | some b => b.count
  | none => 0

/-- The amount stored for a key (0 when absent). -/
def bAmount (m : List (DateKey × Bucket)) (k : DateKey) : Rat :=
  match findBucket m k with
  | some b => b.amount
  | none => 0

/-- One cell of the grid: `{date, count, amount, isCurrentMonth, isToday}`. -/
structure DayData where
  date : SDate
  count : Nat
  amount : Rat
  isCurrentMonth : Bool
  isToday : Bool
  deriving DecidableEq

/-- The per-cell aggregation loop over `displayYears` (lines 127-140):
`totalCount`/`totalAmount` accumulated from the buckets found. -/
def cellAgg (pd : List (DateKey × Bucket)) (ys : List Int) (m d : Nat) : Nat × Rat :=
  ys.foldl
    (fun acc y =>
      match findBucket pd (y, m, d) with
      | some b => (acc.1 + b.count, acc.2 + b.amount)
      | none => acc) (0, 0)

/-- One cell of the 31×12 grid (lines 114-150); `today` stands for `new Date()`
and supplies the reference year. -/
def mkCell (pd : List (DateKey × Bucket)) (ys : List Int) (today : SDate) (m d : Nat) : DayData :=
  if d ≤ lastDayOfMonth today.year m then
    ⟨mkDate today.year m d, (cellAgg pd ys m d).1, (cellAgg pd ys m d).2, true,
     ys.any (fun y => decide (mkDate y m d = today))⟩
  else
    ⟨mkDate today.year m d, 0, 0, false, false⟩

/-- The value of the `calendarData` memo (lines 92-162). -/
structure CalendarData where
  grid : List (List DayData)
  maxCount : Nat
  maxAmount : Rat
  monthNames : List String
  deriving DecidableEq

def monthNamesList : List String :=
  ["Jan", "Feb", "Mar", "Apr", "May", "Jun", "Jul", "Aug", "Sep", "Oct", "Nov", "Dec"]

/-- JS `x || y` for an optional number: `undefined` and `0` both fall through. -/
def truthyOr (x : Option Rat) (y : Rat) : Rat :=
  match x with
  | some v => if v = 0 then y else v
  | none => y

/-- `Array.from(processedData.values()).map(d => d.amount).filter(a => a > 0)`. -/
def positiveAmounts (pd : List (DateKey × Bucket)) : List Rat :=
  (pd.map (fun p => p.2.amount)).filter (fun a => decide (0 < a))

/-- Lines 100-105: the 80th-percentile scale maximum, computed from the sorted
positive bucket amounts. `sortedAmounts.length * 4 / 5` (natural division) is
`Math.floor(sortedAmounts.length * 0.80)`. -/
def maxAmountOf (pd : List (DateKey × Bucket)) : Rat :=
  let sortedAmounts := List.insertionSort (· ≤ ·) (positiveAmounts pd)
  let idx := sortedAmounts.length * 4 / 5
  if 0 < sortedAmounts.length then
    max (truthyOr sortedAmounts[idx]? (truthyOr sortedAmounts[sortedAmounts.length - 1]? 1)) 1
  else 1

/-- `calendarData` (lines 92-162): the grid (rows = days 1..31, columns =
months 0..11) together with the scale context and month labels. -/
def calendarData (pd : List (DateKey × Bucket)) (ys : List Int) (today : SDate) : CalendarData :=
  ⟨(List.range 31).map (fun r => (List.range 12).map (fun m => mkCell pd ys today m (r + 1))),
   (pd.map (fun p => p.2.count)).foldl Nat.max 1,
   maxAmountOf pd,
   monthNamesList⟩

/-- The result of `getColorIntensity`: either the string `'transparent'` or an
`rgba(r, g, b, opacity)` value. -/
inductive Color
  | transparent
  | rgba (r g b : Nat) (opacity : Rat)
  deriving DecidableEq

def baseColorsOf : ChartType → Nat × Nat × Nat
  | ChartType.income => (34, 197, 94)
  | ChartType.expense => (239, 68, 68)

/-- `const intensity = Math.min(amount / calendarData.maxAmount, 1)` (line 169). -/
def intensityOf (maxAmount amount : Rat) : Rat := min (amount / maxAmount) 1

/-- `getColorIntensity` (lines 165-177). -/
def getColorIntensity (ty : ChartType) (maxAmount : Rat) (amount : Rat) : Color :=
  if amount = 0 then Color.transparent
  else
    let intensity := intensityOf maxAmount amount
    let c := baseColorsOf ty
    Color.rgba c.1 c.2.1 c.2.2 (max (1/10) intensity)

def targetPathOf : ChartType → String
  | ChartType.income => "/incomes"
  | ChartType.expense => "/expenses"

/-- `handleCellClick` (lines 188-212): `none` models "no navigation request",
`some url` models the single `router.push(url)`. -/
def handleCellClick (ty : ChartType) (cell : DayData) : Option String :=
  if cell.isCurrentMonth = false ∨ cell.count = 0 then none
  else
    some (targetPathOf ty ++ "?startDate=" ++ formatDateForURL (prevDay cell.date) ++
      "&endDate=" ++ formatDateForURL (nextDay cell.date))

/-- JS `toFixed(2)` on the exact rational value: round half away from zero is
never hit on the inputs below; `⌊q·100 + 1/2⌋` is the ECMA "pick the larger
candidate" rounding for nonnegative `q`. -/
def ratToFixed2 (q : Rat) : String :=
  let n : Int := ⌊q * 100 + 1/2⌋
  let s := toString (n.natAbs / 100) ++ "." ++ pad2 (n.natAbs % 100)
  if n < 0 then "-" ++ s else s

/-- The activity-level conditional chain (lines 220-223). -/
def activityLevel (count : Nat) : String :=
  if count = 0 then "None"
  else if count = 1 then "Single"
  else if count ≤ 3 then "Low"
  else if count ≤ 6 then "Moderate"
  else "High"

/-- One data row of `csvDataForControls` (lines 218-237). -/
def csvRow (monthNames : List String) (rowIndex colIndex : Nat) (cell : DayData) : List String :=
  let averageAmount : Rat := if 0 < cell.count then cell.amount / (cell.count : Rat) else 0
  let dateString :=
    if cell.isCurrentMonth then (monthNames.getD colIndex "") ++ " " ++ toString (rowIndex + 1)
    else "Invalid"
  [toString (rowIndex + 1),
   monthNames.getD colIndex "",
   dateString,
   if cell.isCurrentMonth then toString cell.count else "0",
   if cell.isCurrentMonth then ratToFixed2 cell.amount else "0.00",
   if cell.isCurrentMonth then ratToFixed2 averageAmount else "0.00",
   if cell.isCurrentMonth then activityLevel cell.count else "N/A",
   if cell.isCurrentMonth then "Yes" else "No"]

/-- `(array).forEach((x, i) => ...)` index bookkeeping. -/
def enumIdx {α : Type} : Nat → List α → List (Nat × α)
  | _, [] => []
  | i, a :: as => (i, a) :: enumIdx (i + 1) as

def csvHeader : List String :=
  ["Day of Month", "Month", "Date", "Transaction Count", "Total Amount",
   "Average per Transaction", "Activity Level", "Valid Day"]

/-- `csvDataForControls` (lines 215-239): the header row followed by one row per
grid cell, in grid traversal order (day-major, then month). -/
def csvDataForControls (cd : CalendarData) : List (List String) :=
  csvHeader ::
    (enumIdx 0 cd.grid).flatMap (fun rp =>
      (enumIdx 0 rp.2).map (fun cp => csvRow cd.monthNames rp.1 cp.1 cp.2))

/-- `totalTransactions` (line 180). -/
def totalTransactionsOf (pd : List (DateKey × Bucket)) : Nat :=
  (pd.map (fun p => p.2.count)).sum

/-- `chartTitle` (lines 182-184); `titleProp` is the `title` prop (`none` for
absent/falsy) and `tp` is `formatTimePeriod()`. -/
def chartTitleOf (titleProp : Option String) (ty : ChartType) (tp : String)
    (pd : List (DateKey × Bucket)) : String :=
  match titleProp with
  | some t => t
  | none =>
    let n := totalTransactionsOf pd
    let base :=
      (match ty with | ChartType.income => "Income" | ChartType.expense => "Expense") ++
        " Transaction Frequency - " ++ tp
    if 0 < n then
      base ++ " • " ++ toString n ++ " transaction" ++ (if n ≠ 1 then "s" else "")
    else base

/-- The total of `cell.count` over a grid. -/
def gridTotalCount (g : List (List DayData)) : Nat :=
  (g.map (fun row => (row.map (fun c => c.count)).sum)).sum

/-! ### Concrete fixtures used by the scenario theorems -/

/-- The identity conversion (same currency on both sides). -/
def idConv : Conv := fun a _ _ => some a

/-- Scenario 1 of the spec: two transactions on March 5 of different years. -/
def txsScenario1 : List Transaction :=
  [⟨1, ⟨2023, 2, 5⟩, 100, "USD"⟩, ⟨2, ⟨2024, 2, 5⟩, 50, "USD"⟩]

/-- A single transaction dated February 29 of the leap year 2024. -/
def txsLeapDay : List Transaction := [⟨1, ⟨2024, 1, 29⟩, 100, "USD"⟩]

/-- A fixed "now" in the non-leap year 2023. -/
def todayFix : SDate := ⟨2023, 5, 15⟩

/-- A fixed "now" in 2025 (any reference year in which March 5 exists). -/
def today2025 : SDate := ⟨2025, 5, 15⟩

/-- A conversion function that always fails. -/
def failConv : Conv := fun _ _ _ => none

/-- A transaction whose conversion will fail. -/
def txFail : Transaction := ⟨1, ⟨2024, 2, 5⟩, 100, "USD"⟩


/-- Stated from the claim's words (for comparison with the source): the spec's
`maxAmountP80` formula applied to the strictly positive CELL amounts of the
completed grid — ascending sort, index `floor(n * 0.8)` clamped to the last
element, `max(·, 1)`, and `1` when no positive amount exists. -/
def specMaxAmountP80FromGrid (g : List (List DayData)) : Rat :=
  let amounts :=
    (g.flatMap (fun row => row.map (fun c => c.amount))).filter (fun a => decide (0 < a))
  let sorted := List.insertionSort (· ≤ ·) amounts
  if sorted.length = 0 then 1
  else max (sorted.getD (min (sorted.length * 4 / 5) (sorted.length - 1)) 0) 1

/-- Stated from the claim's words: the same formula applied to an arbitrary
list of amounts. -/
def specMaxAmountP80FromAmounts (l : List Rat) : Rat :=
  let sorted := List.insertionSort (· ≤ ·) l
  if sorted.length = 0 then 1
  else max (sorted.getD (min (sorted.length * 4 / 5) (sorted.length - 1)) 0) 1


/-- Stated from the claim's words: the four-level activity classification by
count ranges — `None` = 0, `Single` = 1, `Low` = 2-3, `Moderate` = 4-6,
`High` >= 7. -/
def claimActivityLevel (n : Nat) : String :=
  if n = 0 then "None"
  else if n = 1 then "Single"
  else if 2 <= n ∧ n <= 3 then "Low"
  else if 4 <= n ∧ n <= 6 then "Moderate"
  else "High"

/-- Left-pad a digit string with zeros to width `k`. -/
def padZeros (k : Nat) (s : String) : String :=
  String.mk (List.replicate (k - s.length) '0') ++ s

/-- Decimal rendering of a rational with exactly `k` fraction digits. -/
def ratDigitsStr (q : Rat) (k : Nat) : String :=
  let n : Int := (q * ((10 : Rat) ^ k)).num
  let sign := if n < 0 then "-" else ""
  let ip := n.natAbs / 10 ^ k
  let fr := n.natAbs % 10 ^ k
  if k = 0 then sign ++ toString ip
  else sign ++ toString ip ++ "." ++ padZeros k (toString fr)

/-- The least number of fraction digits (up to the fuel) that renders `q`
exactly. -/
def decDigits (q : Rat) : Nat → Nat → Nat
  | k, 0 => k
  | k, Nat.succ fuel => if (q * ((10 : Rat) ^ k)).den = 1 then k else decDigits q (k + 1) fuel

/-- Model of JS number-to-string coercion for the rationals arising in the SVG
builder: the shortest terminating decimal (every value the builder produces
terminates); a non-terminating rational falls back to an explicit fraction. -/
def ratToStr (q : Rat) : String :=
  let k := decDigits q 0 17
  if (q * ((10 : Rat) ^ k)).den = 1 then ratDigitsStr q k
  else toString q.num ++ "/" ++ toString q.den

/-- Insert en-US thousands separators into a reversed digit stream. -/
def groupRev : List Char → Nat → List Char
  | [], _ => []
  | c :: rest, i =>
    if i ≠ 0 ∧ i % 3 = 0 then ',' :: c :: groupRev rest (i + 1)
    else c :: groupRev rest (i + 1)

def groupDigits (s : String) : String := String.mk ((groupRev s.toList.reverse 0).reverse)

/-- Model of `Number.prototype.toLocaleString()` in the default en-US locale:
at most 3 fraction digits, comma-grouped integer part. -/
def numToLocale (q : Rat) : String :=
  let n : Int := ⌊q * 1000 + 1/2⌋
  let sign := if n < 0 then "-" else ""
  let ip := n.natAbs / 1000
  let fr := n.natAbs % 1000
  let ipStr := groupDigits (toString ip)
  if fr = 0 then sign ++ ipStr
  else
    let f3 := padZeros 3 (toString fr)
    let fstr := String.mk ((f3.toList.reverse.dropWhile (fun c => c == '0')).reverse)
    sign ++ ipStr ++ "." ++ fstr

/-- One element of the produced vector document: tag, attributes in the order
they end up set, and text content. -/
structure SvgNode where
  tag : String
  attrs : List (String × String)
  text : Option String
  deriving DecidableEq

/-- The string returned by `getColorIntensity` (the rgba template literal). -/
def colorToStr : Color → String
  | Color.transparent => "transparent"
  | Color.rgba r g b o =>
    "rgba(" ++ toString r ++ ", " ++ toString g ++ ", " ++ toString b ++ ", " ++
      ratToStr o ++ ")"

/-- The `[0, 0.25, 0.5, 0.75, 1]` legend swatch intensities (line 418). -/
def legendIntensities : List Rat := [0, 1/4, 1/2, 3/4, 1]

/-- `downloadCalendarChartAsSVG` (lines 277-460): the produced vector document
as the ordered list of created elements (the `svg` root first, then children in
append order).  `rectW`/`rectH` model `getBoundingClientRect()`, `titleProp`
the `title` prop and `tp` the `formatTimePeriod()` string. -/
def svgDoc (cd : CalendarData) (pd : List (DateKey × Bucket)) (ty : ChartType)
    (currency : String) (titleProp : Option String) (tp : String) (rectW rectH : Rat) :
    List SvgNode :=
  let width : Rat := max 2500 (rectW * 3 / 2)
  let height : Rat := max 1000 rectH
  let chartTitle := chartTitleOf titleProp ty tp pd
  let gridStartX : Rat := 40
  let gridStartY : Rat := 100
  let availableWidth := width - gridStartX * 2
  let dayLabelWidth : Rat := 60
  let gridWidth := availableWidth - dayLabelWidth
  let cellWidth : Rat := ((⌊gridWidth / 12⌋ : Int) : Rat)
  let cellHeight : Rat := 25
  SvgNode.mk "svg"
      [("width", ratToStr width), ("height", ratToStr height),
       ("xmlns", "http://www.w3.org/2000/svg")] none ::
  SvgNode.mk "rect" [("width", "100%"), ("height", "100%"), ("fill", "#ffffff")] none ::
  SvgNode.mk "text"
      [("x", "40"), ("y", "40"), ("font-family", "Arial, sans-serif"), ("font-size", "22"),
       ("font-weight", "bold"), ("fill", "#111827")] (some chartTitle) ::
  ((enumIdx 0 cd.monthNames).map (fun ip =>
    SvgNode.mk "text"
      [("x", ratToStr (gridStartX + dayLabelWidth + (ip.1 : Rat) * cellWidth + cellWidth / 2)),
       ("y", ratToStr (gridStartY - 15)), ("text-anchor", "middle"),
       ("font-family", "Arial, sans-serif"), ("font-size", "14"), ("font-weight", "bold"),
       ("fill", "#111827")] (some ip.2)) ++
  (enumIdx 0 cd.grid).flatMap (fun rp =>
    SvgNode.mk "text"
        [("x", ratToStr (gridStartX + dayLabelWidth / 2)),
         ("y", ratToStr (gridStartY + (rp.1 : Rat) * cellHeight + cellHeight / 2 + 5)),
         ("text-anchor", "middle"), ("font-family", "Arial, sans-serif"), ("font-size", "12"),
         ("fill", "#6b7280")] (some (toString (rp.1 + 1))) ::
    (enumIdx 0 rp.2).flatMap (fun cp =>
      let x := gridStartX + dayLabelWidth + (cp.1 : Rat) * cellWidth
      let y := gridStartY + (rp.1 : Rat) * cellHeight
      let baseAttrs := [("x", ratToStr x), ("y", ratToStr y),
        ("width", ratToStr (cellWidth - 3)), ("height", ratToStr (cellHeight - 3)), ("rx", "3")]
      let cellRect :=
        if cp.2.isCurrentMonth then
          let backgroundColor := colorToStr (getColorIntensity ty cd.maxAmount cp.2.amount)
          let fill := if backgroundColor = "transparent" then "#f9fafb" else backgroundColor
          if cp.2.isToday then
            SvgNode.mk "rect"
              (baseAttrs ++ [("fill", fill), ("stroke", "#3b82f6"), ("stroke-width", "2")]) none
          else
            SvgNode.mk "rect"
              (baseAttrs ++ [("fill", fill), ("stroke", "#e5e7eb"), ("stroke-width", "1")]) none
        else
          SvgNode.mk "rect"
            (baseAttrs ++ [("fill", "#f9fafb"), ("stroke", "#e5e7eb"), ("stroke-width", "1"),
             ("opacity", "0.3")]) none
      if 0 < cp.2.count ∧ cp.2.isCurrentMonth = true then
        [cellRect,
         SvgNode.mk "text"
           [("x", ratToStr (x + cellWidth / 2)), ("y", ratToStr (y + cellHeight / 2 + 4)),
            ("text-anchor", "middle"), ("font-family", "Arial, sans-serif"), ("font-size", "12"),
            ("font-weight", "bold"), ("fill", "#374151")] (some (toString cp.2.count))]
      else [cellRect])) ++
  (let legendY := gridStartY + (cd.grid.length : Rat) * cellHeight + 60
   let legendCenterX := width / 2
   let allAmounts := (pd.map (fun p => p.2.amount)).filter (fun a => decide (0 < a))
   let minAmount : Rat :=
     match allAmounts with
     | [] => 0
     | a :: rest => rest.foldl min a
   let sortedAmounts := List.insertionSort (· ≤ ·) allAmounts
   let idx := sortedAmounts.length * 4 / 5
   let maxScaleAmount : Rat :=
     if 0 < sortedAmounts.length then
       max (truthyOr sortedAmounts[idx]?
         (truthyOr sortedAmounts[sortedAmounts.length - 1]? 1)) 1
     else 0
   SvgNode.mk "text"
       [("x", ratToStr (legendCenterX - 140)), ("y", ratToStr legendY),
        ("font-family", "Arial, sans-serif"), ("font-size", "14"), ("fill", "#6b7280")]
       (some ("Less [" ++ currency ++ " " ++ numToLocale minAmount ++ "]")) ::
   ((enumIdx 0 legendIntensities).map (fun ip =>
     SvgNode.mk "rect"
       [("x", ratToStr (legendCenterX - 60 + (ip.1 : Rat) * 24)),
        ("y", ratToStr (legendY - 15)), ("width", "20"), ("height", "20"), ("rx", "3"),
        ("stroke", "#e5e7eb"), ("stroke-width", "1"),
        ("fill", if ip.2 = 0 then "#f3f4f6"
          else "rgba(" ++ toString (baseColorsOf ty).1 ++ ", " ++
            toString (baseColorsOf ty).2.1 ++ ", " ++ toString (baseColorsOf ty).2.2 ++ ", " ++
            ratToStr ip.2 ++ ")")] none) ++
    [SvgNode.mk "text"
       [("x", ratToStr (legendCenterX + 80)), ("y", ratToStr legendY),
        ("font-family", "Arial, sans-serif"), ("font-size", "14"), ("fill", "#6b7280")]
       (some ("More [" ++ currency ++ " " ++ numToLocale maxScaleAmount ++ "]"))])))

/-- A transaction landing only in a grid-invisible slot (Feb 29, non-leap
reference year) with an amount small enough not to move the scale context. -/
def txsHiddenLeap : List Transaction := [⟨1, ⟨2024, 1, 29⟩, 1/2, "USD"⟩]

/-! ### Helper lemmas -/

theorem one_le_maxAmountOf (pd : List (DateKey × Bucket)) : 1 ≤ maxAmountOf pd := by
  unfold maxAmountOf
  dsimp only
  split
  · exact le_max_right _ _
  · exact le_refl 1

theorem maxAmountOf_pos (pd : List (DateKey × Bucket)) : 0 < maxAmountOf pd :=
  lt_of_lt_of_le one_pos (one_le_maxAmountOf pd)

/-! ### Claims -/

/-- C4: the intensity function of the scaler is monotonic and bounded — for cell
amounts `A > B > 0` we have `intensity(B) ≤ intensity(A)`, both values are
`min(amount / maxAmountP80, 1)` and lie in `(0, 1]`, and for amount `0` the
scaler emits the distinguished `transparent` marker instead of a scaled color. -/
theorem c4_intensity_monotone_bounded (pd : List (DateKey × Bucket)) (ys : List Int)
    (today : SDate) (ty : ChartType) (A B : Rat) (hBA : B < A) (hB : 0 < B) :
    intensityOf (calendarData pd ys today).maxAmount B ≤
        intensityOf (calendarData pd ys today).maxAmount A ∧
      (0 < intensityOf (calendarData pd ys today).maxAmount A ∧
        intensityOf (calendarData pd ys today).maxAmount A ≤ 1) ∧
      (0 < intensityOf (calendarData pd ys today).maxAmount B ∧
        intensityOf (calendarData pd ys today).maxAmount B ≤ 1) ∧
      getColorIntensity ty (calendarData pd ys today).maxAmount 0 = Color.transparent := by
  have hM : (calendarData pd ys today).maxAmount = maxAmountOf pd := rfl
  have hM0 : 0 < (calendarData pd ys today).maxAmount := by
    rw [hM]; exact maxAmountOf_pos pd
  have hA : 0 < A := hB.trans hBA
  refine ⟨?_, ⟨?_, ?_⟩, ⟨?_, ?_⟩, ?_⟩
  · exact min_le_min ((div_le_div_iff_of_pos_right hM0).mpr hBA.le) (le_refl 1)
  · exact lt_min (div_pos hA hM0) one_pos
  · exact min_le_right _ _
  · exact lt_min (div_pos hB hM0) one_pos
  · exact min_le_right _ _
  · simp [getColorIntensity]

/-- Witness for C4 at a concrete instantiation. -/
theorem c4_witness :
    intensityOf (calendarData [] [] todayFix).maxAmount 1 ≤
        intensityOf (calendarData [] [] todayFix).maxAmount 2 ∧
      (0 < intensityOf (calendarData [] [] todayFix).maxAmount 2 ∧
        intensityOf (calendarData [] [] todayFix).maxAmount 2 ≤ 1) ∧
      (0 < intensityOf (calendarData [] [] todayFix).maxAmount 1 ∧
        intensityOf (calendarData [] [] todayFix).maxAmount 1 ≤ 1) ∧
      getColorIntensity ChartType.income (calendarData [] [] todayFix).maxAmount 0 =
        Color.transparent :=
  c4_intensity_monotone_bounded [] [] todayFix ChartType.income 2 1 (by norm_num) (by norm_num)

/-- C10: for a cell amount `a > 0` the emitted fill is an rgba color whose
opacity is `max(0.1, min(a / maxAmountP80, 1))`; hence every positive amount
renders with opacity at least `0.1`, and for every amount at or below 10% of
`maxAmountP80` the opacity is the constant `0.1` (not proportional to `a`). -/
theorem c10_opacity_floor (pd : List (DateKey × Bucket)) (ys : List Int) (today : SDate)
    (ty : ChartType) (M a : Rat) (hM : M = (calendarData pd ys today).maxAmount) (ha : 0 < a) :
    getColorIntensity ty M a =
        Color.rgba (baseColorsOf ty).1 (baseColorsOf ty).2.1 (baseColorsOf ty).2.2
          (max (1/10) (min (a / M) 1)) ∧
      1/10 ≤ max (1/10) (min (a / M) 1) ∧
      (a ≤ M / 10 → max (1/10) (min (a / M) 1) = 1/10) := by
  have hM0 : 0 < M := by rw [hM]; exact maxAmountOf_pos pd
  refine ⟨?_, le_max_left _ _, ?_⟩
  · have hne : a ≠ 0 := ne_of_gt ha
    simp [getColorIntensity, intensityOf, hne]
  · intro hle
    have h10 : a / M ≤ 1/10 := by
      have := (div_le_div_iff_of_pos_right hM0).mpr hle
      calc a / M ≤ M / 10 / M := this
        _ = 1 / 10 := by field_simp; ring
    have hmin : min (a / M) 1 = a / M :=
      min_eq_left (h10.trans (by norm_num))
    rw [hmin]
    exact max_eq_left h10

/-- Witness for C10 at a concrete instantiation. -/
theorem c10_witness :
    getColorIntensity ChartType.expense 1 (1/20) =
        Color.rgba (baseColorsOf ChartType.expense).1 (baseColorsOf ChartType.expense).2.1
          (baseColorsOf ChartType.expense).2.2 (max (1/10) (min ((1/20) / 1) 1)) ∧
      1/10 ≤ max (1/10) (min ((1/20 : Rat) / 1) 1) ∧
      ((1/20 : Rat) ≤ 1 / 10 → max (1/10) (min ((1/20 : Rat) / 1) 1) = 1/10) :=
  c10_opacity_floor [] [] todayFix ChartType.expense 1 (1/20) (by decide) (by norm_num)

/-- C5: for every input, the grid has exactly 31 rows of 12 columns, a cell is
invalid iff its day-of-month exceeds `lastDayOfMonth(referenceYear, month)`, and
every invalid cell carries `count = 0` and `amount = 0`, independent of the
transactions. -/
theorem c5_grid_shape_and_validity (pd : List (DateKey × Bucket)) (ys : List Int)
    (today : SDate) (r c : Nat) (hr : r < 31) (hc : c < 12) :
    (calendarData pd ys today).grid.length = 31 ∧
      (∀ row ∈ (calendarData pd ys today).grid, row.length = 12) ∧
      ∃ cell, ((calendarData pd ys today).grid[r]?.bind (fun row => row[c]?)) = some cell ∧
        (cell.isCurrentMonth = true ↔ r + 1 ≤ lastDayOfMonth today.year c) ∧
        (cell.isCurrentMonth = false → cell.count = 0 ∧ cell.amount = 0) := by
  refine ⟨by simp [calendarData], ?_, ?_⟩
  · intro row hrow
    simp only [calendarData, List.mem_map] at hrow
    obtain ⟨i, _, hi⟩ := hrow
    simp [← hi]
  · refine ⟨mkCell pd ys today c (r + 1), ?_, ?_, ?_⟩
    · simp [calendarData, List.getElem?_map, List.getElem?_range, hr, hc]
    · unfold mkCell
      split
      · simpa
      · simp_all
    · unfold mkCell
      split
      · simp
      · simp

/-- Witness for C5 at a concrete instantiation. -/
theorem c5_witness :
    (calendarData [] [] todayFix).grid.length = 31 ∧
      (∀ row ∈ (calendarData [] [] todayFix).grid, row.length = 12) ∧
      ∃ cell, ((calendarData [] [] todayFix).grid[29]?.bind (fun row => row[1]?)) = some cell ∧
        (cell.isCurrentMonth = true ↔ 29 + 1 ≤ lastDayOfMonth todayFix.year 1) ∧
        (cell.isCurrentMonth = false → cell.count = 0 ∧ cell.amount = 0) :=
  c5_grid_shape_and_validity [] [] todayFix 29 1 (by decide) (by decide)

/-- C6: a click on an invalid or empty cell emits no navigation request; a click
on a valid cell with a nonzero count emits exactly one navigation request to the
active domain's list view (`/incomes` or `/expenses`) whose `startDate` and
`endDate` query parameters are the cell's date minus and plus one day, each
formatted as `YYYY-MM-DD`. -/
theorem c6_cell_click (ty : ChartType) (cell : DayData) :
    ((cell.isCurrentMonth = false ∨ cell.count = 0) → handleCellClick ty cell = none) ∧
      (cell.isCurrentMonth = true → 0 < cell.count →
        handleCellClick ty cell =
          some (targetPathOf ty ++ "?startDate=" ++ formatDateForURL (prevDay cell.date) ++
            "&endDate=" ++ formatDateForURL (nextDay cell.date))) := by
  constructor
  · intro h
    unfold handleCellClick
    rw [if_pos h]
  · intro hvalid hcount
    unfold handleCellClick
    rw [if_neg]
    push_neg
    exact ⟨by simp [hvalid], Nat.pos_iff_ne_zero.mp hcount⟩

/-- Witness for C6: the spec's Scenario 3 (a click on the March 5 cell with
count 3 for the expense domain) and Scenario 4 (a click on an invalid cell). -/
theorem c6_witness :
    handleCellClick ChartType.expense ⟨⟨2024, 1, 30⟩, 0, 0, false, false⟩ = none ∧
      handleCellClick ChartType.expense ⟨⟨2024, 2, 5⟩, 3, 100, true, false⟩ =
        some "/expenses?startDate=2024-03-04&endDate=2024-03-06" := by
  constructor
  · exact (c6_cell_click ChartType.expense ⟨⟨2024, 1, 30⟩, 0, 0, false, false⟩).1 (Or.inl rfl)
  · exact ((c6_cell_click ChartType.expense ⟨⟨2024, 2, 5⟩, 3, 100, true, false⟩).2 rfl
      (by decide)).trans (by decide)


/-- C9 counterexample: for the spec's Scenario 1 input, the bucket mapping is
keyed by `(year, month, day)` and NO bucket of the mapping holds
`count = 2, amount = 150` — the two transactions of different years land in two
distinct per-year buckets (the grid cell, by contrast, does aggregate them). -/
theorem c9_counterexample :
    processedData txsScenario1 idConv "USD" =
        [((2023, 2, 5), ⟨1, 100⟩), ((2024, 2, 5), ⟨1, 50⟩)] ∧
      ∀ p ∈ processedData txsScenario1 idConv "USD", ¬(p.2.count = 2 ∧ p.2.amount = 150) := by
  have h : processedData txsScenario1 idConv "USD" =
      [((2023, 2, 5), ⟨1, 100⟩), ((2024, 2, 5), ⟨1, 50⟩)] := by
    norm_num [processedData, pdStep, txsScenario1, updateAssoc, convertForDisplaySync, idConv, dateKey]
  refine ⟨h, ?_⟩
  rw [h]
  intro p hp
  simp only [List.mem_cons, List.not_mem_nil, or_false] at hp
  rcases hp with rfl | rfl <;> norm_num

/-- C9 (amended): for the Scenario 1 input with identity conversion, the bucket
mapping holds the per-year buckets `(2023, 2, 5) ↦ {count 1, amount 100}` and
`(2024, 2, 5) ↦ {count 1, amount 50}`, and the grid cell at day 5 of March rolls
both years up to `count = 2, amount = 150`. -/
theorem c9_multi_year_rollup :
    bCount (processedData txsScenario1 idConv "USD") (2023, 2, 5) = 1 ∧
      bAmount (processedData txsScenario1 idConv "USD") (2023, 2, 5) = 100 ∧
      bCount (processedData txsScenario1 idConv "USD") (2024, 2, 5) = 1 ∧
      bAmount (processedData txsScenario1 idConv "USD") (2024, 2, 5) = 50 ∧
      ((calendarData (processedData txsScenario1 idConv "USD") (displayYears txsScenario1)
            today2025).grid[4]?.bind (fun row => row[2]?)) =
        some ⟨⟨2025, 2, 5⟩, 2, 150, true, false⟩ := by
  refine ⟨?_, ?_, ?_, ?_, ?_⟩
  · norm_num [processedData, pdStep, txsScenario1, updateAssoc, convertForDisplaySync, idConv, dateKey,
      bCount, findBucket]
  · norm_num [processedData, pdStep, txsScenario1, updateAssoc, convertForDisplaySync, idConv, dateKey,
      bAmount, findBucket]
  · norm_num [processedData, pdStep, txsScenario1, updateAssoc, convertForDisplaySync, idConv, dateKey,
      bCount, findBucket]
  · norm_num [processedData, pdStep, txsScenario1, updateAssoc, convertForDisplaySync, idConv, dateKey,
      bAmount, findBucket]
  · norm_num [calendarData, List.getElem?_map, List.getElem?_range, mkCell, cellAgg, displayYears,
      addYear, List.insertionSort, List.orderedInsert, lastDayOfMonth, isLeapYear, mkDate,
      processedData, pdStep, txsScenario1, updateAssoc, convertForDisplaySync, idConv, dateKey,
      findBucket, today2025]

/-! ### Lookup lemmas for the bucket map -/

theorem findBucket_cons (pk : DateKey) (pb : Bucket) (rest : List (DateKey × Bucket))
    (q : DateKey) :
    findBucket ((pk, pb) :: rest) q = if pk = q then some pb else findBucket rest q := rfl

theorem bCount_cons (pk : DateKey) (pb : Bucket) (rest : List (DateKey × Bucket)) (q : DateKey) :
    bCount ((pk, pb) :: rest) q = if pk = q then pb.count else bCount rest q := by
  unfold bCount
  rw [findBucket_cons]
  split_ifs <;> rfl

theorem bAmount_cons (pk : DateKey) (pb : Bucket) (rest : List (DateKey × Bucket)) (q : DateKey) :
    bAmount ((pk, pb) :: rest) q = if pk = q then pb.amount else bAmount rest q := by
  unfold bAmount
  rw [findBucket_cons]
  split_ifs <;> rfl

theorem bCount_updateAssoc (m : List (DateKey × Bucket)) (k q : DateKey) (a : Rat) :
    bCount (updateAssoc m k a) q = bCount m q + (if k = q then 1 else 0) := by
  induction m with
  | nil =>
    unfold updateAssoc
    rw [bCount_cons]
    by_cases h : k = q <;> simp [h, bCount, findBucket]
  | cons p rest ih =>
    rcases p with ⟨pk, pb⟩
    unfold updateAssoc
    by_cases hpk : pk = k
    · rw [if_pos hpk, bCount_cons, bCount_cons]
      by_cases hq : pk = q
      · have : k = q := hpk ▸ hq
        simp [hq, this]
      · have : ¬(k = q) := fun h => hq (hpk.trans h)
        simp [hq, this]
    · rw [if_neg hpk, bCount_cons, bCount_cons]
      by_cases hq : pk = q
      · have : ¬(k = q) := fun h => hpk (hq.trans h.symm)
        simp [hq, this]
      · simp [hq, ih]

theorem bAmount_updateAssoc (m : List (DateKey × Bucket)) (k q : DateKey) (a : Rat) :
    bAmount (updateAssoc m k a) q = bAmount m q + (if k = q then a else 0) := by
  induction m with
  | nil =>
    unfold updateAssoc
    rw [bAmount_cons]
    by_cases h : k = q <;> simp [h, bAmount, findBucket]
  | cons p rest ih =>
    rcases p with ⟨pk, pb⟩
    unfold updateAssoc
    by_cases hpk : pk = k
    · rw [if_pos hpk, bAmount_cons, bAmount_cons]
      by_cases hq : pk = q
      · have : k = q := hpk ▸ hq
        simp [hq, this]
      · have : ¬(k = q) := fun h => hq (hpk.trans h)
        simp [hq, this]
    · rw [if_neg hpk, bAmount_cons, bAmount_cons]
      by_cases hq : pk = q
      · have : ¬(k = q) := fun h => hpk (hq.trans h.symm)
        simp [hq, this]
      · simp [hq, ih]

/-- The count stored at `k` after folding `txs` into `m`: the base count plus
one per transaction dated at `k`. -/
theorem bCount_foldl (conv : Conv) (curr : String) (txs : List Transaction)
    (m : List (DateKey × Bucket)) (k : DateKey) :
    bCount (txs.foldl (pdStep conv curr) m) k =
      bCount m k + (txs.filter (fun t => decide (dateKey t.date = k))).length := by
  induction txs generalizing m with
  | nil => simp
  | cons t ts ih =>
    rw [List.foldl_cons, ih, List.filter_cons]
    show bCount (pdStep conv curr m t) k + _ = _
    unfold pdStep
    rw [bCount_updateAssoc]
    by_cases h : dateKey t.date = k
    · simp [h]; omega
    · simp [h]

/-- The amount stored at `k` after folding `txs` into `m`: the base amount plus
the sum of the converted amounts of the transactions dated at `k`. -/
theorem bAmount_foldl (conv : Conv) (curr : String) (txs : List Transaction)
    (m : List (DateKey × Bucket)) (k : DateKey) :
    bAmount (txs.foldl (pdStep conv curr) m) k =
      bAmount m k + ((txs.filter (fun t => decide (dateKey t.date = k))).map
        (fun t => convertForDisplaySync conv t.amount t.currency curr)).sum := by
  induction txs generalizing m with
  | nil => simp
  | cons t ts ih =>
    rw [List.foldl_cons, ih, List.filter_cons]
    show bAmount (pdStep conv curr m t) k + _ = _
    unfold pdStep
    rw [bAmount_updateAssoc]
    by_cases h : dateKey t.date = k
    · simp [h]; ring
    · simp [h]

/-- C2 counterexample: with a conversion function that fails on the (single)
transaction, the aggregation pass completes, but the failing transaction does
NOT contribute zero to its bucket: it still increments the bucket count from 0
to 1 (only its amount contribution is zero). -/
theorem c2_counterexample :
    processedData [txFail] failConv "USD" = [((2024, 2, 5), ⟨1, 0⟩)] ∧
      bCount (processedData [txFail] failConv "USD") (2024, 2, 5) = 1 ∧
      bCount (processedData [] failConv "USD") (2024, 2, 5) = 0 := by
  refine ⟨?_, ?_, by decide⟩
  · norm_num [processedData, pdStep, txFail, updateAssoc, convertForDisplaySync, failConv, dateKey]
  · norm_num [processedData, pdStep, txFail, updateAssoc, convertForDisplaySync, failConv, dateKey,
      bCount, findBucket]

/-- C2 (amended): a conversion failure on one transaction does not abort the
aggregation pass — for every split `l1 ++ t0 :: l2` of the input where the
conversion fails on `t0`, every bucket amount is exactly as if `t0` were absent
(its amount contribution is zero), and every bucket count is as if `t0` were
absent except that `t0` still increments the count of its own bucket by one. -/
theorem c2_conversion_failure_isolated (conv : Conv) (curr : String)
    (l1 l2 : List Transaction) (t0 : Transaction)
    (hfail : conv t0.amount t0.currency curr = none) (k : DateKey) :
    bAmount (processedData (l1 ++ t0 :: l2) conv curr) k =
        bAmount (processedData (l1 ++ l2) conv curr) k ∧
      bCount (processedData (l1 ++ t0 :: l2) conv curr) k =
        bCount (processedData (l1 ++ l2) conv curr) k +
          (if dateKey t0.date = k then 1 else 0) := by
  have hz : convertForDisplaySync conv t0.amount t0.currency curr = 0 := by
    unfold convertForDisplaySync
    rw [hfail]
    rfl
  constructor
  · rw [processedData, processedData, bAmount_foldl, bAmount_foldl]
    congr 1
    rw [List.filter_append, List.filter_append, List.filter_cons]
    by_cases h : dateKey t0.date = k
    · simp [h, hz]
    · simp [h]
  · rw [processedData, processedData, bCount_foldl, bCount_foldl]
    rw [List.filter_append, List.filter_append, List.filter_cons]
    by_cases h : dateKey t0.date = k
    · simp [h]
      omega
    · simp [h]

/-- Witness for C2 at a concrete instantiation (the always-failing conversion
and a single transaction). -/
theorem c2_witness :
    bAmount (processedData ([] ++ txFail :: []) failConv "USD") (2024, 2, 5) =
        bAmount (processedData ([] ++ []) failConv "USD") (2024, 2, 5) ∧
      bCount (processedData ([] ++ txFail :: []) failConv "USD") (2024, 2, 5) =
        bCount (processedData ([] ++ []) failConv "USD") (2024, 2, 5) +
          (if dateKey txFail.date = (2024, 2, 5) then 1 else 0) :=
  c2_conversion_failure_isolated failConv "USD" [] [] txFail rfl (2024, 2, 5)

/-- C3 counterexample: for the Scenario 1 input (transactions of 100 and 50 on
March 5 of two different years), the source computes `maxAmountP80 = 100` from
the per-year BUCKET amounts `[100, 50]`, while the claim's formula over the
grid's cell amounts (the single positive cell amount 150) yields 150. -/
theorem c3_counterexample :
    (calendarData (processedData txsScenario1 idConv "USD") (displayYears txsScenario1)
        today2025).maxAmount = 100 ∧
      specMaxAmountP80FromGrid
        ((calendarData (processedData txsScenario1 idConv "USD") (displayYears txsScenario1)
          today2025).grid) = 150 := by
  constructor
  · norm_num [calendarData, maxAmountOf, positiveAmounts, processedData, pdStep, txsScenario1,
      updateAssoc, convertForDisplaySync, idConv, dateKey, List.insertionSort, List.orderedInsert,
      truthyOr]
  · norm_num [specMaxAmountP80FromGrid, calendarData, mkCell, cellAgg, displayYears, addYear,
      List.insertionSort, List.orderedInsert, lastDayOfMonth, isLeapYear, mkDate, processedData,
      pdStep, txsScenario1, updateAssoc, convertForDisplaySync, idConv, dateKey, findBucket,
      today2025, List.range_succ]

theorem percentileIdx_lt (n : Nat) (h : 0 < n) : n * 4 / 5 < n := by
  rw [Nat.div_lt_iff_lt_mul (by norm_num : (0 : Nat) < 5)]
  omega

/-- C3 (amended): `maxAmountP80` is `max(sorted[floor(n*0.8)], 1)` over the
ascending-sorted list of the `n` strictly positive BUCKET amounts of the
date-bucket mapping (not the grid's aggregated cell amounts), with the index
`floor(n*0.8)` always within range and `1` used when no positive bucket amount
exists. -/
theorem c3_maxAmount_from_bucket_amounts (pd : List (DateKey × Bucket)) :
    maxAmountOf pd = specMaxAmountP80FromAmounts (positiveAmounts pd) := by
  unfold maxAmountOf specMaxAmountP80FromAmounts
  dsimp only
  by_cases hn : 0 < (List.insertionSort (· ≤ ·) (positiveAmounts pd)).length
  · rw [if_pos hn, if_neg (by omega)]
    have hidx :
        (List.insertionSort (· ≤ ·) (positiveAmounts pd)).length * 4 / 5 <
          (List.insertionSort (· ≤ ·) (positiveAmounts pd)).length := percentileIdx_lt _ hn
    have hmin :
        min ((List.insertionSort (· ≤ ·) (positiveAmounts pd)).length * 4 / 5)
            ((List.insertionSort (· ≤ ·) (positiveAmounts pd)).length - 1) =
          (List.insertionSort (· ≤ ·) (positiveAmounts pd)).length * 4 / 5 := by omega
    rw [hmin]
    have hsome :
        (List.insertionSort (· ≤ ·) (positiveAmounts pd))[(List.insertionSort (· ≤ ·)
            (positiveAmounts pd)).length * 4 / 5]? =
          some ((List.insertionSort (· ≤ ·) (positiveAmounts pd))[(List.insertionSort (· ≤ ·)
            (positiveAmounts pd)).length * 4 / 5]) := List.getElem?_eq_getElem hidx
    have hpos :
        0 < (List.insertionSort (· ≤ ·) (positiveAmounts pd))[(List.insertionSort (· ≤ ·)
          (positiveAmounts pd)).length * 4 / 5] := by
      have hmem : (List.insertionSort (· ≤ ·) (positiveAmounts pd))[(List.insertionSort (· ≤ ·)
          (positiveAmounts pd)).length * 4 / 5] ∈ positiveAmounts pd := by
        rw [← List.mem_insertionSort (· ≤ ·)]
        exact List.getElem_mem hidx
      have := List.mem_filter.mp hmem
      exact of_decide_eq_true this.2
    rw [hsome]
    simp only [truthyOr]
    rw [if_neg (ne_of_gt hpos)]
    rw [List.getD_eq_getElem?_getD, hsome]
    rfl
  · rw [if_neg hn, if_pos (by omega)]

/-! ### CSV export lemmas -/

theorem enumIdx_length {α : Type} (i : Nat) (l : List α) : (enumIdx i l).length = l.length := by
  induction l generalizing i with
  | nil => rfl
  | cons a as ih => simp [enumIdx, ih]

theorem enumIdx_map_getElem {α β : Type} (f : Nat → α → β) (j c : Nat) (l : List α) :
    ((enumIdx j l).map (fun p => f p.1 p.2))[c]? = l[c]?.map (f (j + c)) := by
  induction l generalizing j c with
  | nil => simp [enumIdx]
  | cons a as ih =>
    cases c with
    | zero => simp [enumIdx]
    | succ c1 =>
      simp only [enumIdx, List.map_cons, List.getElem?_cons_succ]
      rw [ih]
      rw [show j + (c1 + 1) = (j + 1) + c1 by omega]

theorem flatChunks_getElem {α β : Type} (g : Nat → Nat → α → β) (m : Nat) (L : List (List α)) :
    ∀ (i r c : Nat), (∀ l ∈ L, l.length = m) → c < m →
      ((enumIdx i L).flatMap
          (fun rp => (enumIdx 0 rp.2).map (fun cp => g rp.1 cp.1 cp.2)))[r * m + c]? =
        (L[r]?.bind (fun row => row[c]?)).map (fun cell => g (i + r) c cell) := by
  induction L with
  | nil => intro i r c _ _; simp [enumIdx]
  | cons row rest ih =>
    intro i r c hlen hc
    have hrowlen : row.length = m := hlen row (List.mem_cons_self _ _)
    simp only [enumIdx, List.flatMap_cons]
    cases r with
    | zero =>
      have hclt : c < ((enumIdx 0 row).map (fun cp => g i cp.1 cp.2)).length := by
        rw [List.length_map, enumIdx_length]; omega
      rw [Nat.zero_mul, Nat.zero_add, List.getElem?_append_left hclt]
      rw [enumIdx_map_getElem (g i) 0 c]
      simp
    | succ r1 =>
      have hlen1 : ((enumIdx 0 row).map (fun cp => g i cp.1 cp.2)).length = m := by
        rw [List.length_map, enumIdx_length, hrowlen]
      have hge : ((enumIdx 0 row).map (fun cp => g i cp.1 cp.2)).length ≤ (r1 + 1) * m + c := by
        rw [hlen1]; nlinarith
      rw [List.getElem?_append_right hge]
      rw [hlen1, show (r1 + 1) * m + c - m = r1 * m + c by ring_nf; omega]
      rw [ih (i + 1) r1 c (fun l hl => hlen l (List.mem_cons_of_mem _ hl)) hc]
      simp only [List.getElem?_cons_succ]
      rw [show i + (r1 + 1) = (i + 1) + r1 by omega]

theorem flatChunks_length {α β : Type} (g : Nat → Nat → α → β) (m : Nat) (L : List (List α)) :
    ∀ (i : Nat), (∀ l ∈ L, l.length = m) →
      ((enumIdx i L).flatMap
          (fun rp => (enumIdx 0 rp.2).map (fun cp => g rp.1 cp.1 cp.2))).length =
        L.length * m := by
  induction L with
  | nil => intro i _; simp [enumIdx]
  | cons row rest ih =>
    intro i hlen
    simp only [enumIdx, List.flatMap_cons, List.length_append, List.length_map, enumIdx_length,
      List.length_cons]
    rw [hlen row (List.mem_cons_self _ _),
      ih (i + 1) (fun l hl => hlen l (List.mem_cons_of_mem _ hl))]
    ring

theorem activityLevel_eq_claim (n : Nat) : activityLevel n = claimActivityLevel n := by
  unfold activityLevel claimActivityLevel
  split_ifs <;> first | rfl | omega

theorem ratToFixed2_zero : ratToFixed2 0 = "0.00" := by
  have h : ⌊(0 : Rat) * 100 + 1/2⌋ = 0 := by
    rw [Int.floor_eq_iff]
    constructor <;> norm_num
  unfold ratToFixed2
  rw [h]
  rfl

theorem calendarData_grid_cell (pd : List (DateKey × Bucket)) (ys : List Int) (today : SDate)
    (r c : Nat) (hr : r < 31) (hc : c < 12) :
    ((calendarData pd ys today).grid[r]?.bind (fun row => row[c]?)) =
      some (mkCell pd ys today c (r + 1)) := by
  simp [calendarData, List.getElem?_map, List.getElem?_range, hr, hc]

theorem calendarData_grid_row_len (pd : List (DateKey × Bucket)) (ys : List Int) (today : SDate) :
    ∀ l ∈ (calendarData pd ys today).grid, l.length = 12 := by
  intro l hl
  simp only [calendarData, List.mem_map] at hl
  obtain ⟨i, _, hi⟩ := hl
  simp [← hi]

theorem mkCell_invalid (pd : List (DateKey × Bucket)) (ys : List Int) (today : SDate)
    (m d : Nat) :
    (mkCell pd ys today m d).isCurrentMonth = false →
      (mkCell pd ys today m d).count = 0 ∧ (mkCell pd ys today m d).amount = 0 := by
  unfold mkCell
  split
  · intro h; simp at h
  · intro _; simp

/-- C7 (amended): the tabular export has a header plus one data row per
`(dayOfMonth, month)` cell in day-major order (row for day `r+1`, month `c`
sits at index `1 + (r*12 + c)`), each row's average column is
`amount/count` when `count > 0` and `0` otherwise (rendered with two decimals),
and the activity column is the four-level classification (`None` 0, `Single` 1,
`Low` 2-3, `Moderate` 4-6, `High` >= 7) for VALID cells, while invalid cells
export the literal `N/A` (their count is 0). -/
theorem c7_csv_rows (pd : List (DateKey × Bucket)) (ys : List Int) (today : SDate)
    (r c : Nat) (hr : r < 31) (hc : c < 12) :
    (csvDataForControls (calendarData pd ys today)).length = 373 ∧
      ∃ cell,
        ((calendarData pd ys today).grid[r]?.bind (fun row => row[c]?)) = some cell ∧
        (csvDataForControls (calendarData pd ys today))[1 + (r * 12 + c)]? =
          some (csvRow monthNamesList r c cell) ∧
        (csvRow monthNamesList r c cell)[5]? =
          some (ratToFixed2 (if 0 < cell.count then cell.amount / (cell.count : Rat) else 0)) ∧
        (cell.isCurrentMonth = true →
          (csvRow monthNamesList r c cell)[6]? = some (claimActivityLevel cell.count)) ∧
        (cell.isCurrentMonth = false → (csvRow monthNamesList r c cell)[6]? = some "N/A") := by
  have hrowlen := calendarData_grid_row_len pd ys today
  have hglen : (calendarData pd ys today).grid.length = 31 := by simp [calendarData]
  have hmn : (calendarData pd ys today).monthNames = monthNamesList := rfl
  constructor
  · simp only [csvDataForControls, List.length_cons]
    rw [flatChunks_length (fun a b cell => csvRow (calendarData pd ys today).monthNames a b cell)
      12 _ 0 hrowlen, hglen]
  · refine ⟨mkCell pd ys today c (r + 1), calendarData_grid_cell pd ys today r c hr hc,
      ?_, ?_, ?_, ?_⟩
    · simp only [csvDataForControls]
      rw [show 1 + (r * 12 + c) = (r * 12 + c) + 1 by omega, List.getElem?_cons_succ]
      rw [flatChunks_getElem (fun a b cell => csvRow (calendarData pd ys today).monthNames a b cell)
        12 _ 0 r c hrowlen hc]
      rw [calendarData_grid_cell pd ys today r c hr hc]
      simp [hmn]
    · by_cases hv : (mkCell pd ys today c (r + 1)).isCurrentMonth = true
      · simp [csvRow, hv]
      · have hfalse : (mkCell pd ys today c (r + 1)).isCurrentMonth = false :=
          Bool.not_eq_true _ ▸ (by simpa using hv)
        have hcnt := (mkCell_invalid pd ys today c (r + 1) hfalse).1
        simp [csvRow, hfalse, hcnt, ratToFixed2_zero]
    · intro hval
      simp [csvRow, hval, activityLevel_eq_claim]
    · intro hinv
      simp [csvRow, hinv]

/-- Witness for C7 at a concrete instantiation. -/
theorem c7_witness :
    (csvDataForControls (calendarData [] [] todayFix)).length = 373 ∧
      ∃ cell,
        ((calendarData [] [] todayFix).grid[0]?.bind (fun row => row[0]?)) = some cell ∧
        (csvDataForControls (calendarData [] [] todayFix))[1 + (0 * 12 + 0)]? =
          some (csvRow monthNamesList 0 0 cell) ∧
        (csvRow monthNamesList 0 0 cell)[5]? =
          some (ratToFixed2 (if 0 < cell.count then cell.amount / (cell.count : Rat) else 0)) ∧
        (cell.isCurrentMonth = true →
          (csvRow monthNamesList 0 0 cell)[6]? = some (claimActivityLevel cell.count)) ∧
        (cell.isCurrentMonth = false → (csvRow monthNamesList 0 0 cell)[6]? = some "N/A") :=
  c7_csv_rows [] [] todayFix 0 0 (by norm_num) (by norm_num)

/-- C7 counterexample: the data row of the (invalid) cell "day 30 of February"
carries activity level `N/A` even though its count is 0, where the claim's
classification prescribes `None` for count 0. -/
theorem c7_counterexample :
    ((csvDataForControls (calendarData [] [] todayFix))[350]?).bind (fun row => row[6]?) =
        some "N/A" ∧
      (((calendarData [] [] todayFix).grid[29]?.bind (fun row => row[1]?)).map
        (fun cell => cell.count)) = some 0 ∧
      claimActivityLevel 0 = "None" := by
  refine ⟨?_, ?_, rfl⟩
  · simp only [csvDataForControls]
    rw [show (350 : Nat) = (29 * 12 + 1) + 1 by norm_num, List.getElem?_cons_succ]
    rw [flatChunks_getElem
      (fun a b cell => csvRow (calendarData [] [] todayFix).monthNames a b cell) 12 _ 0 29 1
      (calendarData_grid_row_len [] [] todayFix) (by norm_num)]
    rw [calendarData_grid_cell [] [] todayFix 29 1 (by norm_num) (by norm_num)]
    norm_num [mkCell, lastDayOfMonth, isLeapYear, todayFix, csvRow]
  · rw [calendarData_grid_cell [] [] todayFix 29 1 (by norm_num) (by norm_num)]
    norm_num [mkCell, lastDayOfMonth, isLeapYear, todayFix]

/-! ### Counting lemmas for the grid total (C1) -/

theorem range_map_sum_succ (f : Nat → Nat) (n : Nat) :
    ((List.range (n + 1)).map f).sum = ((List.range n).map f).sum + f n := by
  simp [List.range_succ]

theorem range_map_sum_congr (f g : Nat → Nat) (n : Nat) (h : ∀ i, i < n → f i = g i) :
    ((List.range n).map f).sum = ((List.range n).map g).sum := by
  induction n with
  | zero => rfl
  | succ n ih =>
    rw [range_map_sum_succ, range_map_sum_succ, ih (fun i hi => h i (by omega)), h n (by omega)]

theorem range_map_sum_add (f g : Nat → Nat) (n : Nat) :
    ((List.range n).map (fun i => f i + g i)).sum =
      ((List.range n).map f).sum + ((List.range n).map g).sum := by
  induction n with
  | zero => rfl
  | succ n ih =>
    rw [range_map_sum_succ, range_map_sum_succ, range_map_sum_succ, ih]
    omega

theorem range_map_sum_ite (x v n : Nat) :
    ((List.range n).map (fun i => if i = x then v else 0)).sum = if x < n then v else 0 := by
  induction n with
  | zero => simp
  | succ n ih =>
    rw [range_map_sum_succ, ih]
    by_cases h1 : x < n
    · rw [if_pos h1, if_neg (show ¬(n = x) by omega), if_pos (show x < n + 1 by omega)]
      omega
    · by_cases h2 : n = x
      · rw [if_neg h1, if_pos h2, if_pos (show x < n + 1 by omega)]
        omega
      · rw [if_neg h1, if_neg h2, if_neg (show ¬(x < n + 1) by omega)]

theorem list_sum_map_add {α : Type} (f g : α → Nat) (l : List α) :
    (l.map (fun x => f x + g x)).sum = (l.map f).sum + (l.map g).sum := by
  induction l with
  | nil => rfl
  | cons a as ih => simp [ih]; omega

theorem cellAgg_fold_aux (pd : List (DateKey × Bucket)) (m d : Nat) :
    ∀ (ys : List Int) (acc : Nat × Rat),
      ys.foldl
          (fun acc y =>
            match findBucket pd (y, m, d) with
            | some b => (acc.1 + b.count, acc.2 + b.amount)
            | none => acc) acc =
        (acc.1 + (ys.map (fun y => bCount pd (y, m, d))).sum,
         acc.2 + (ys.map (fun y => bAmount pd (y, m, d))).sum) := by
  intro ys
  induction ys with
  | nil => intro acc; simp
  | cons y ys ih =>
    intro acc
    rw [List.foldl_cons, ih]
    cases h : findBucket pd (y, m, d) with
    | some b =>
      simp only [h, List.map_cons, List.sum_cons, bCount, bAmount]
      rw [Prod.mk.injEq]
      constructor
      · omega
      · ring
    | none =>
      simp only [h, List.map_cons, List.sum_cons, bCount, bAmount]
      rw [Prod.mk.injEq]
      constructor
      · omega
      · ring

theorem cellAgg_count (pd : List (DateKey × Bucket)) (ys : List Int) (m d : Nat) :
    (cellAgg pd ys m d).1 = (ys.map (fun y => bCount pd (y, m, d))).sum := by
  unfold cellAgg
  rw [cellAgg_fold_aux]
  simp

theorem sum_ind_key (k : DateKey) (m d : Nat) :
    ∀ ys : List Int, ys.Nodup →
      (ys.map (fun y => if k = (y, m, d) then (1 : Nat) else 0)).sum =
        if k.1 ∈ ys ∧ k.2.1 = m ∧ k.2.2 = d then 1 else 0 := by
  intro ys
  induction ys with
  | nil => simp
  | cons a as ih =>
    intro hnd
    obtain ⟨hna, hnd2⟩ := List.nodup_cons.mp hnd
    simp only [List.map_cons, List.sum_cons, List.mem_cons]
    rw [ih hnd2]
    rcases k with ⟨ky, km, kd⟩
    by_cases h1 : (ky, km, kd) = ((a : Int), m, d)
    · have hky : ky = a ∧ km = m ∧ kd = d := by
        simpa [Prod.ext_iff] using h1
      rw [if_pos h1]
      have hnot : ¬((ky, km, kd).1 ∈ as ∧ (ky, km, kd).2.1 = m ∧ (ky, km, kd).2.2 = d) := by
        intro hcon
        exact hna (hky.1 ▸ hcon.1)
      rw [if_neg hnot, if_pos (by exact ⟨Or.inl hky.1, hky.2.1, hky.2.2⟩)]
    · rw [if_neg h1]
      by_cases h2 : (ky, km, kd).1 ∈ as ∧ (ky, km, kd).2.1 = m ∧ (ky, km, kd).2.2 = d
      · rw [if_pos h2, if_pos ⟨Or.inr h2.1, h2.2⟩]
      · rw [if_neg h2, if_neg ?_]
        intro hcon
        rcases hcon with ⟨hy | hy, hm, hd⟩
        · exact h1 (by simp [Prod.ext_iff]; exact ⟨hy, hm, hd⟩)
        · exact h2 ⟨hy, hm, hd⟩

theorem cellAgg_count_update (pd : List (DateKey × Bucket)) (ys : List Int) (hnd : ys.Nodup)
    (k : DateKey) (a : Rat) (m d : Nat) :
    (cellAgg (updateAssoc pd k a) ys m d).1 =
      (cellAgg pd ys m d).1 + (if k.1 ∈ ys ∧ k.2.1 = m ∧ k.2.2 = d then 1 else 0) := by
  rw [cellAgg_count, cellAgg_count]
  simp only [bCount_updateAssoc]
  rw [list_sum_map_add, sum_ind_key k m d ys hnd]

theorem mkCell_count (pd : List (DateKey × Bucket)) (ys : List Int) (today : SDate) (m d : Nat) :
    (mkCell pd ys today m d).count =
      if d ≤ lastDayOfMonth today.year m then (cellAgg pd ys m d).1 else 0 := by
  unfold mkCell
  split
  · rfl
  · rfl

theorem gridTotalCount_calendarData (pd : List (DateKey × Bucket)) (ys : List Int)
    (today : SDate) :
    gridTotalCount ((calendarData pd ys today).grid) =
      ((List.range 31).map
        (fun r => ((List.range 12).map (fun m => (mkCell pd ys today m (r + 1)).count)).sum)).sum := by
  unfold gridTotalCount calendarData
  dsimp only
  rw [List.map_map]
  exact range_map_sum_congr _ _ 31
    (fun i _ => by simp only [Function.comp_apply]; rw [List.map_map]; rfl)

theorem lastDayOfMonth_le_31 (y : Int) (m : Nat) : lastDayOfMonth y m ≤ 31 := by
  unfold lastDayOfMonth
  split_ifs <;> omega

set_option maxHeartbeats 2000000 in
theorem gridTotalCount_update (pd : List (DateKey × Bucket)) (ys : List Int) (hnd : ys.Nodup)
    (today : SDate) (k : DateKey) (a : Rat) :
    gridTotalCount ((calendarData (updateAssoc pd k a) ys today).grid) =
      gridTotalCount ((calendarData pd ys today).grid) +
        (if k.1 ∈ ys ∧ k.2.1 < 12 ∧ 1 ≤ k.2.2 ∧ k.2.2 ≤ 31 ∧
            k.2.2 ≤ lastDayOfMonth today.year k.2.1 then 1 else 0) := by
  rcases k with ⟨ky, km, kd⟩
  rw [gridTotalCount_calendarData, gridTotalCount_calendarData]
  have hcell : ∀ r m : Nat,
      (mkCell (updateAssoc pd (ky, km, kd) a) ys today m (r + 1)).count =
        (mkCell pd ys today m (r + 1)).count +
          (if (r + 1 ≤ lastDayOfMonth today.year m) ∧ ky ∈ ys ∧ km = m ∧ kd = r + 1
            then 1 else 0) := by
    intro r m
    rw [mkCell_count, mkCell_count]
    by_cases hv : r + 1 ≤ lastDayOfMonth today.year m
    · rw [if_pos hv, if_pos hv, cellAgg_count_update pd ys hnd (ky, km, kd) a m (r + 1)]
      by_cases hB : ky ∈ ys ∧ km = m ∧ kd = r + 1
      · rw [if_pos hB, if_pos ⟨hv, hB⟩]
      · rw [if_neg hB, if_neg (fun hcon => hB hcon.2)]
    · rw [if_neg hv, if_neg hv, if_neg (fun hcon => hv hcon.1)]
  have hrow : ∀ r : Nat,
      ((List.range 12).map
          (fun m => (mkCell (updateAssoc pd (ky, km, kd) a) ys today m (r + 1)).count)).sum =
        ((List.range 12).map (fun m => (mkCell pd ys today m (r + 1)).count)).sum +
          (if ky ∈ ys ∧ km < 12 ∧ kd = r + 1 ∧ kd ≤ lastDayOfMonth today.year km
            then 1 else 0) := by
    intro r
    rw [range_map_sum_congr _ _ 12 (fun m _ => hcell r m), range_map_sum_add]
    congr 1
    have hpt : ∀ m : Nat, m < 12 →
        (if (r + 1 ≤ lastDayOfMonth today.year m) ∧ ky ∈ ys ∧ km = m ∧ kd = r + 1
          then (1 : Nat) else 0) =
          (if m = km then
            (if ky ∈ ys ∧ kd = r + 1 ∧ kd ≤ lastDayOfMonth today.year km then 1 else 0)
          else 0) := by
      intro m hmlt
      by_cases hm : m = km
      · subst hm
        rw [if_pos rfl]
        by_cases hP : ky ∈ ys
        · simp only [hP, true_and]
          split_ifs <;> omega
        · simp [hP]
      · rw [if_neg hm, if_neg (fun hcon => hm hcon.2.2.1.symm)]
    rw [range_map_sum_congr _ _ 12 hpt, range_map_sum_ite]
    by_cases hP : ky ∈ ys
    · simp only [hP, true_and]
      split_ifs <;> omega
    · simp [hP]
  have hS :
      ((List.range 31).map
          (fun r => if ky ∈ ys ∧ km < 12 ∧ kd = r + 1 ∧ kd ≤ lastDayOfMonth today.year km
            then (1 : Nat) else 0)).sum =
        (if ky ∈ ys ∧ km < 12 ∧ 1 ≤ kd ∧ kd ≤ 31 ∧ kd ≤ lastDayOfMonth today.year km
          then 1 else 0) := by
    have hpt2 : ∀ r : Nat, r < 31 →
        (if ky ∈ ys ∧ km < 12 ∧ kd = r + 1 ∧ kd ≤ lastDayOfMonth today.year km
          then (1 : Nat) else 0) =
          (if r = kd - 1 then
            (if ky ∈ ys ∧ km < 12 ∧ 1 ≤ kd ∧ kd ≤ lastDayOfMonth today.year km then 1 else 0)
          else 0) := by
      intro r hrlt
      by_cases hP : ky ∈ ys
      · simp only [hP, true_and]
        split_ifs <;> omega
      · simp [hP]
    rw [range_map_sum_congr _ _ 31 hpt2, range_map_sum_ite]
    have hle := lastDayOfMonth_le_31 today.year km
    by_cases hP : ky ∈ ys
    · simp only [hP, true_and]
      split_ifs <;> omega
    · simp [hP]
  calc
    ((List.range 31).map
        (fun r => ((List.range 12).map
          (fun m => (mkCell (updateAssoc pd (ky, km, kd) a) ys today m (r + 1)).count)).sum)).sum
      = ((List.range 31).map
          (fun r => ((List.range 12).map (fun m => (mkCell pd ys today m (r + 1)).count)).sum +
            (if ky ∈ ys ∧ km < 12 ∧ kd = r + 1 ∧ kd ≤ lastDayOfMonth today.year km
              then 1 else 0))).sum := range_map_sum_congr _ _ 31 (fun r _ => hrow r)
    _ = ((List.range 31).map
          (fun r => ((List.range 12).map (fun m => (mkCell pd ys today m (r + 1)).count)).sum)).sum +
        ((List.range 31).map
          (fun r => if ky ∈ ys ∧ km < 12 ∧ kd = r + 1 ∧ kd ≤ lastDayOfMonth today.year km
            then (1 : Nat) else 0)).sum :=
      range_map_sum_add
        (fun r => ((List.range 12).map (fun m => (mkCell pd ys today m (r + 1)).count)).sum)
        (fun r => if ky ∈ ys ∧ km < 12 ∧ kd = r + 1 ∧ kd ≤ lastDayOfMonth today.year km
          then (1 : Nat) else 0) 31
    _ = ((List.range 31).map
          (fun r => ((List.range 12).map (fun m => (mkCell pd ys today m (r + 1)).count)).sum)).sum +
        (if ky ∈ ys ∧ km < 12 ∧ 1 ≤ kd ∧ kd ≤ 31 ∧ kd ≤ lastDayOfMonth today.year km
          then 1 else 0) := by rw [hS]

theorem addYear_nodup (acc : List Int) (y : Int) (h : acc.Nodup) : (addYear acc y).Nodup := by
  unfold addYear
  split
  · exact h
  · next hy =>
    rw [List.nodup_append]
    exact ⟨h, List.nodup_singleton y, fun a ha hay => hy ((List.mem_singleton.mp hay) ▸ ha)⟩

theorem foldl_addYear_nodup (data : List Transaction) :
    ∀ acc : List Int, acc.Nodup →
      (data.foldl (fun acc t => addYear acc t.date.year) acc).Nodup := by
  induction data with
  | nil => intro acc h; exact h
  | cons t ts ih => intro acc h; exact ih _ (addYear_nodup _ _ h)

theorem displayYears_nodup (data : List Transaction) : (displayYears data).Nodup := by
  unfold displayYears
  exact ((List.perm_insertionSort _ _).nodup_iff).mpr (foldl_addYear_nodup data [] List.nodup_nil)

theorem mem_foldl_addYear_mono (data : List Transaction) :
    ∀ (acc : List Int) (y : Int), y ∈ acc →
      y ∈ data.foldl (fun acc t => addYear acc t.date.year) acc := by
  induction data with
  | nil => intro acc y h; exact h
  | cons t ts ih =>
    intro acc y h
    rw [List.foldl_cons]
    apply ih
    unfold addYear
    split
    · exact h
    · exact List.mem_append_left _ h

theorem mem_foldl_addYear (data : List Transaction) :
    ∀ (acc : List Int) (t : Transaction), t ∈ data →
      t.date.year ∈ data.foldl (fun acc t => addYear acc t.date.year) acc := by
  induction data with
  | nil => intro acc t ht; cases ht
  | cons s ss ih =>
    intro acc t ht
    rw [List.foldl_cons]
    rcases List.mem_cons.mp ht with rfl | hmem
    · apply mem_foldl_addYear_mono
      unfold addYear
      split
      · next hin => exact hin
      · exact List.mem_append_right _ (List.mem_singleton_self _)
    · exact ih _ t hmem

theorem year_mem_displayYears (data : List Transaction) (t : Transaction) (ht : t ∈ data) :
    t.date.year ∈ displayYears data := by
  unfold displayYears
  rw [List.mem_insertionSort]
  exact mem_foldl_addYear data [] t ht

theorem gridTotalCount_nil (ys : List Int) (today : SDate) :
    gridTotalCount ((calendarData [] ys today).grid) = 0 := by
  rw [gridTotalCount_calendarData]
  apply List.sum_eq_zero
  intro x hx
  simp only [List.mem_map, List.mem_range] at hx
  obtain ⟨r, _, rfl⟩ := hx
  apply List.sum_eq_zero
  intro z hz
  simp only [List.mem_map, List.mem_range] at hz
  obtain ⟨m, _, rfl⟩ := hz
  rw [mkCell_count]
  split
  · rw [cellAgg_count]
    apply List.sum_eq_zero
    intro w hw
    simp only [List.mem_map] at hw
    obtain ⟨y, _, rfl⟩ := hw
    rfl
  · rfl

theorem gridTotalCount_foldl (conv : Conv) (curr : String) (today : SDate) (ys : List Int)
    (hnd : ys.Nodup) :
    ∀ (txs : List Transaction) (pd : List (DateKey × Bucket)),
      (∀ t ∈ txs, t.date.month < 12 ∧ 1 ≤ t.date.day ∧ t.date.day ≤ 31 ∧ t.date.year ∈ ys) →
      gridTotalCount ((calendarData (txs.foldl (pdStep conv curr) pd) ys today).grid) =
        gridTotalCount ((calendarData pd ys today).grid) +
          (txs.filter
            (fun t => decide (t.date.day ≤ lastDayOfMonth today.year t.date.month))).length := by
  intro txs
  induction txs with
  | nil => intro pd _; simp
  | cons t ts ih =>
    intro pd hwf
    have hwft := hwf t (List.mem_cons_self _ _)
    rw [List.foldl_cons]
    rw [ih (pdStep conv curr pd t) (fun s hs => hwf s (List.mem_cons_of_mem _ hs))]
    unfold pdStep
    rw [gridTotalCount_update pd ys hnd today (dateKey t.date)
      (convertForDisplaySync conv t.amount t.currency curr)]
    rw [List.filter_cons]
    by_cases hval : t.date.day ≤ lastDayOfMonth today.year t.date.month
    · have hcond : (dateKey t.date).1 ∈ ys ∧ (dateKey t.date).2.1 < 12 ∧
          1 ≤ (dateKey t.date).2.2 ∧ (dateKey t.date).2.2 ≤ 31 ∧
          (dateKey t.date).2.2 ≤ lastDayOfMonth today.year (dateKey t.date).2.1 :=
        ⟨hwft.2.2.2, hwft.1, hwft.2.1, hwft.2.2.1, hval⟩
      rw [if_pos hcond, if_pos (decide_eq_true hval)]
      simp only [List.length_cons]
      omega
    · rw [if_neg (fun hcon => hval hcon.2.2.2.2), if_neg (by simpa using hval)]
      omega

theorem lastDayOfMonth_le_leap (y ry : Int) (m : Nat) (hleap : isLeapYear ry = true) :
    lastDayOfMonth y m ≤ lastDayOfMonth ry m := by
  unfold lastDayOfMonth
  rw [hleap]
  split_ifs <;> first | omega | simp_all

/-- C1 (amended): the sum of `cell.count` over all 372 cells of the built grid
equals the number of input transactions whose day-of-month does not exceed
`lastDayOfMonth(referenceYear, month)`; in particular, when the reference year
is a leap year and every transaction carries a real calendar date, it equals the
total number of input transactions.  (A transaction dated February 29 of a leap
year is dropped from the grid when the reference year is NOT a leap year.) -/
theorem c1_grid_count_sum (conv : Conv) (curr : String) (today : SDate) (txs : List Transaction)
    (hwf : ∀ t ∈ txs, t.date.month < 12 ∧ 1 ≤ t.date.day ∧ t.date.day ≤ 31) :
    gridTotalCount ((calendarData (processedData txs conv curr) (displayYears txs) today).grid) =
        (txs.filter
          (fun t => decide (t.date.day ≤ lastDayOfMonth today.year t.date.month))).length ∧
      (isLeapYear today.year = true →
        (∀ t ∈ txs, t.date.day ≤ lastDayOfMonth t.date.year t.date.month) →
        gridTotalCount
            ((calendarData (processedData txs conv curr) (displayYears txs) today).grid) =
          txs.length) := by
  have h1 : gridTotalCount
      ((calendarData (processedData txs conv curr) (displayYears txs) today).grid) =
      (txs.filter
        (fun t => decide (t.date.day ≤ lastDayOfMonth today.year t.date.month))).length := by
    unfold processedData
    rw [gridTotalCount_foldl conv curr today (displayYears txs) (displayYears_nodup txs) txs []
      (fun t ht => ⟨(hwf t ht).1, (hwf t ht).2.1, (hwf t ht).2.2,
        year_mem_displayYears txs t ht⟩)]
    rw [gridTotalCount_nil]
    omega
  refine ⟨h1, fun hleap hreal => ?_⟩
  rw [h1]
  have hself : txs.filter
      (fun t => decide (t.date.day ≤ lastDayOfMonth today.year t.date.month)) = txs := by
    apply List.filter_eq_self.mpr
    intro t ht
    rw [decide_eq_true_eq]
    exact le_trans (hreal t ht) (lastDayOfMonth_le_leap t.date.year today.year t.date.month hleap)
  rw [hself]

/-- Witness for C1 at a concrete instantiation (the Scenario 1 transactions). -/
theorem c1_witness :
    gridTotalCount ((calendarData (processedData txsScenario1 idConv "USD")
          (displayYears txsScenario1) today2025).grid) =
        (txsScenario1.filter
          (fun t => decide (t.date.day ≤ lastDayOfMonth today2025.year t.date.month))).length ∧
      (isLeapYear today2025.year = true →
        (∀ t ∈ txsScenario1, t.date.day ≤ lastDayOfMonth t.date.year t.date.month) →
        gridTotalCount ((calendarData (processedData txsScenario1 idConv "USD")
            (displayYears txsScenario1) today2025).grid) =
          txsScenario1.length) :=
  c1_grid_count_sum idConv "USD" today2025 txsScenario1 (by decide)

/-- C1 counterexample: a single transaction dated February 29 of the leap year
2024, with reference year 2023 (not a leap year), yields a grid whose counts
sum to 0 while the input has 1 transaction. -/
theorem c1_counterexample :
    gridTotalCount ((calendarData (processedData txsLeapDay idConv "USD")
          (displayYears txsLeapDay) todayFix).grid) = 0 ∧
      txsLeapDay.length = 1 := by
  constructor
  · norm_num [gridTotalCount, calendarData, mkCell, cellAgg, displayYears, addYear,
      List.insertionSort, List.orderedInsert, lastDayOfMonth, isLeapYear, mkDate, processedData,
      pdStep, txsLeapDay, updateAssoc, convertForDisplaySync, idConv, dateKey, findBucket,
      todayFix, List.range_succ]
  · rfl

/-- C8 counterexample: two inputs (no transactions, versus one small
transaction dated Feb 29 of 2024 with a non-leap reference year) produce the
SAME grid and the SAME scale context, yet different vector documents — the
document also reads the bucket mapping (legend bounds) and the transaction
total (title), so an identical grid and scale context do not make it
byte-for-byte reproducible. -/
theorem c8_counterexample :
    calendarData (processedData [] idConv "USD") (displayYears []) todayFix =
        calendarData (processedData txsHiddenLeap idConv "USD") (displayYears txsHiddenLeap)
          todayFix ∧
      svgDoc (calendarData (processedData [] idConv "USD") (displayYears []) todayFix)
          (processedData [] idConv "USD") ChartType.income "USD" none "P" 1000 500 ≠
        svgDoc (calendarData (processedData txsHiddenLeap idConv "USD")
            (displayYears txsHiddenLeap) todayFix)
          (processedData txsHiddenLeap idConv "USD") ChartType.income "USD" none "P" 1000 500 := by
  constructor
  · norm_num [calendarData, mkCell, cellAgg, displayYears, addYear, List.insertionSort,
      List.orderedInsert, lastDayOfMonth, isLeapYear, mkDate, processedData, pdStep,
      txsHiddenLeap, updateAssoc, convertForDisplaySync, idConv, dateKey, findBucket, todayFix,
      maxAmountOf, positiveAmounts, truthyOr, List.range_succ]
  · intro heq
    have h2 := congrArg (fun d => (d[2]?).map (fun n => n.text)) heq
    simp only [svgDoc, List.getElem?_cons_succ, List.getElem?_cons_zero, Option.map_some] at h2
    simp only [chartTitleOf, totalTransactionsOf, processedData, pdStep, txsHiddenLeap,
      updateAssoc, convertForDisplaySync, idConv, dateKey, List.foldl_cons, List.foldl_nil,
      List.map_cons, List.map_nil, List.sum_cons, List.sum_nil] at h2
    exact absurd h2 (by decide)

/-- C8 (amended): both export serializations are deterministic pure functions
of their inputs — re-running on identical inputs reproduces the identical CSV
rows and the identical vector document — and the CSV rows depend only on the
grid and the month labels; the vector document, however, additionally reads
the bucket mapping (legend bounds) and the transaction total (title), so the
grid and scale context alone do not determine it. -/
theorem c8_export_determinism (cd cd2 : CalendarData) (pd : List (DateKey × Bucket))
    (ty : ChartType) (currency : String) (titleProp : Option String) (tp : String)
    (rectW rectH : Rat) (hgrid : cd.grid = cd2.grid) (hmn : cd.monthNames = cd2.monthNames) :
    csvDataForControls cd = csvDataForControls cd2 ∧
      svgDoc cd pd ty currency titleProp tp rectW rectH =
        svgDoc cd pd ty currency titleProp tp rectW rectH := by
  constructor
  · unfold csvDataForControls
    rw [hgrid, hmn]
  · rfl

/-- Witness for C8 at a concrete instantiation. -/
theorem c8_witness :
    csvDataForControls (calendarData [] [] todayFix) =
        csvDataForControls (calendarData [] [] todayFix) ∧
      svgDoc (calendarData [] [] todayFix) [] ChartType.income "USD" none "P" 1000 500 =
        svgDoc (calendarData [] [] todayFix) [] ChartType.income "USD" none "P" 1000 500 :=
  c8_export_determinism (calendarData [] [] todayFix) (calendarData [] [] todayFix) []
    ChartType.income "USD" none "P" 1000 500 rfl rfl
